import Mathlib

set_option maxRecDepth 100000

/-!
Shallow embedding of the streaming speech-recognition protocol client of
fcitx5-chinese-addons-with-asr (src/im/voiceinput/asr_client.{h,cpp} and
src/im/voiceinput/volcenginerecognizer.{h,cpp}).

Bytes are modelled as natural numbers below 256 and byte strings as
`List Nat`.  C++ std::string values and the binary wire frames are both
byte strings in this sense.
-/

/-- ASCII bytes of a Lean string literal (used only for ASCII text). -/
def strBytes (s : String) : List Nat := s.data.map Char.toNat

/-- Big-endian encoding of a 32-bit value, as produced by
    `boost::endian::native_to_big<uint32_t>` followed by appending the 4 bytes. -/
def u32be (x : Nat) : List Nat :=
  [x / 16777216 % 256, x / 65536 % 256, x / 256 % 256, x % 256]

/-- Little-endian encoding of a 32-bit value (gzip trailer fields). -/
def u32le (x : Nat) : List Nat :=
  [x % 256, x / 256 % 256, x / 65536 % 256, x / 16777216 % 256]

/-- Read a big-endian 32-bit integer at byte offset `off`, as the C++ code does
    with `*(unsigned int *)(response.data() + off)` plus `big_to_native`
    (reads by the source are in bounds for the frames considered; out-of-range
    bytes read as 0). -/
def readU32be (s : List Nat) (off : Nat) : Nat :=
  s.getD off 0 * 16777216 + s.getD (off + 1) 0 * 65536 +
    s.getD (off + 2) 0 * 256 + s.getD (off + 3) 0

/-! Enumeration constants from asr_client.h. -/

def FULL_CLIENT_REQUEST : Nat := 1
def AUDIO_ONLY_CLIENT_REQUEST : Nat := 2
def FULL_SERVER_RESPONSE : Nat := 9
def SERVER_ACK : Nat := 11
def ERROR_MESSAGE_FROM_SERVER : Nat := 15

def NO_SEQUENCE_NUMBER : Nat := 0
def POSITIVE_SEQUENCE_CLIENT_ASSGIN : Nat := 1
def NEGATIVE_SEQUENCE_SERVER_ASSGIN : Nat := 2
def NEGATIVE_SEQUENCE_CLIENT_ASSIGN : Nat := 3

def NO_SERIAL : Nat := 0
def JSON_SERIAL : Nat := 1
def NO_COMPRESS : Nat := 0
def GZIP : Nat := 1

/-- `_protocol_version` field default (asr_client.h line 190). -/
def protocol_version : Nat := 1

/-- `_header_size` field default (asr_client.h line 191). -/
def header_size : Nat := 4

/-! # Payload compressor

The repository wraps `boost::iostreams` gzip filters (zlib), which is library
code outside this repository; the model below follows the spec §4.2:
`compress`/`decompress` over the gzip container format.  The DEFLATE stream
uses stored (uncompressed) blocks, a valid encoding choice of the format. -/

/-- One bit step of the reflected CRC-32 (polynomial 0xEDB88320). -/
def crcBit (c : Nat) : Nat :=
  if c % 2 = 1 then (c / 2) ^^^ 0xEDB88320 else c / 2

/-- Iterate `crcBit`. -/
def crcBits : Nat → Nat → Nat
  | 0, c => c
  | n + 1, c => crcBits n (crcBit c)

/-- Fold one data byte into the CRC-32 state. -/
def crcByte (c b : Nat) : Nat := crcBits 8 (c ^^^ b)

/-- CRC-32 of a byte string (gzip trailer checksum). -/
def crc32 (data : List Nat) : Nat :=
  (data.foldl crcByte 0xFFFFFFFF) ^^^ 0xFFFFFFFF

/-- Modelled from the spec: the DEFLATE stream of `gzip_compress` (zlib, outside
    this repository), as a sequence of stored blocks.  Each block is a
    BFINAL/BTYPE byte (1 for the final block, 0 otherwise, BTYPE = 00 stored),
    LEN and NLEN little endian, then the raw bytes; stored blocks carry at most
    65535 bytes.  `fuel` bounds the recursion; `length b + 1` always suffices. -/
def storedBlocks (fuel : Nat) (b : List Nat) : List Nat :=
  match fuel with
  | 0 => []
  | fuel + 1 =>
    if b.length ≤ 65535 then
      1 :: b.length % 256 :: b.length / 256 % 256 ::
        (65535 - b.length) % 256 :: (65535 - b.length) / 256 % 256 :: b
    else
      0 :: 255 :: 255 :: 0 :: 0 ::
        (b.take 65535 ++ storedBlocks fuel (b.drop 65535))

/-- The fixed 10-byte gzip member header emitted by the model compressor:
    magic 0x1f 0x8b, method 8 (DEFLATE), no flags, zero mtime, XFL 0, OS 255. -/
def gzipHeader : List Nat := [0x1f, 0x8b, 8, 0, 0, 0, 0, 0, 0, 255]

/-- Modelled from the spec: `gzip_compress` (asr_client.cpp lines 188-196 wraps
    boost::iostreams/zlib, library code outside this repository).  Spec §4.2:
    `compress(bytes) -> bytes` using the gzip container format. -/
def gzip_compress (b : List Nat) : List Nat :=
  gzipHeader ++ storedBlocks (b.length + 1) b ++
    u32le (crc32 b) ++ u32le (b.length % 4294967296)

/-- Parse a sequence of stored DEFLATE blocks; returns the decoded bytes and
    the remaining stream.  `fuel` bounds the recursion. -/
def inflateStored (fuel : Nat) (acc : List Nat) (s : List Nat) :
    Option (List Nat × List Nat) :=
  match fuel with
  | 0 => none
  | fuel + 1 =>
    match s with
    | bfinal :: l0 :: l1 :: n0 :: n1 :: rest =>
      if n0 = (65535 - (l0 + 256 * l1)) % 256 ∧
          n1 = (65535 - (l0 + 256 * l1)) / 256 % 256 ∧
          l0 + 256 * l1 ≤ rest.length then
        if bfinal = 1 then
          some (acc ++ rest.take (l0 + 256 * l1), rest.drop (l0 + 256 * l1))
        else if bfinal = 0 then
          inflateStored fuel (acc ++ rest.take (l0 + 256 * l1))
            (rest.drop (l0 + 256 * l1))
        else none
      else none
    | _ => none

/-- Modelled from the spec: `gzip_decompress` (asr_client.cpp lines 198-208
    wraps boost::iostreams/zlib, outside this repository).  Spec §4.2:
    `decompress(bytes) -> bytes`; malformed input fails (the C++ wrapper
    throws, i.e. `DecompressionError`), modelled as `none`. -/
def gzip_decompress (s : List Nat) : Option (List Nat) :=
  match s with
  | 0x1f :: 0x8b :: 8 :: 0 :: _t0 :: _t1 :: _t2 :: _t3 :: _xf :: _os :: body =>
    match inflateStored (body.length + 1) [] body with
    | some (data, trailer) =>
      if trailer = u32le (crc32 data) ++ u32le (data.length % 4294967296) then
        some data
      else none
    | none => none
  | _ => none

/-- Stored DEFLATE blocks decode back to the bytes they encode, for any
    sufficiently large fuels; `n` bounds the number of blocks. -/
theorem inflateStored_storedBlocks (n : Nat) :
    ∀ fs fi b acc t, b.length ≤ 65535 * n → 1 ≤ n → n ≤ fs → n ≤ fi →
      inflateStored fi acc (storedBlocks fs b ++ t) = some (acc ++ b, t) := by
  induction n with
  | zero =>
    intro fs fi b acc t _ hn _ _
    omega
  | succ n ih =>
    intro fs fi b acc t hlen _ hfs hfi
    obtain ⟨fs, rfl⟩ : ∃ k, fs = k + 1 := ⟨fs - 1, by omega⟩
    obtain ⟨fi, rfl⟩ : ∃ k, fi = k + 1 := ⟨fi - 1, by omega⟩
    by_cases hb : b.length ≤ 65535
    · have hdec : b.length % 256 + 256 * (b.length / 256 % 256) = b.length := by
        omega
      have hle : b.length ≤ (b ++ t).length := by
        rw [List.length_append]; omega
      simp only [storedBlocks, if_pos hb, List.cons_append, inflateStored, hdec]
      rw [List.take_left, List.drop_left]
      simp [hle]
    · have htk : (b.take 65535).length = 65535 := by
        rw [List.length_take]; omega
      have hlit : 255 + 256 * 255 = 65535 := by norm_num
      have hdrop : (b.drop 65535).length ≤ 65535 * n := by
        rw [List.length_drop]; omega
      have hle2 :
          65535 ≤ (b.take 65535 ++ (storedBlocks fs (b.drop 65535) ++ t)).length := by
        rw [List.length_append, htk]; omega
      simp only [storedBlocks, if_neg hb, List.cons_append, List.append_assoc,
        inflateStored]
      rw [hlit, List.take_left' htk, List.drop_left' htk]
      rw [ih fs fi (b.drop 65535) (acc ++ b.take 65535) t hdrop (by omega)
        (by omega) (by omega)]
      simp [hle2, List.append_assoc, List.take_append_drop]
      rw [Nat.min_eq_left (by omega : 65535 ≤ b.length)]
      omega

/-- The stored-block stream is at least as long as the bytes it carries. -/
theorem length_storedBlocks (n : Nat) :
    ∀ fs b, b.length ≤ 65535 * n → 1 ≤ n → n ≤ fs →
      b.length ≤ (storedBlocks fs b).length := by
  induction n with
  | zero =>
    intro fs b _ hn _
    omega
  | succ n ih =>
    intro fs b hlen _ hfs
    obtain ⟨fs, rfl⟩ : ∃ k, fs = k + 1 := ⟨fs - 1, by omega⟩
    by_cases hb : b.length ≤ 65535
    · simp only [storedBlocks, if_pos hb, List.length_cons]
      omega
    · simp only [storedBlocks, if_neg hb, List.length_cons, List.length_append]
      have hdrop : (b.drop 65535).length ≤ 65535 * n := by
        rw [List.length_drop]; omega
      have htk : (b.take 65535).length = 65535 := by
        rw [List.length_take]; omega
      have := ih fs (b.drop 65535) hdrop (by omega) (by omega)
      rw [List.length_drop] at this
      omega


theorem gzip_roundtrip_aux (b : List Nat) :
    gzip_decompress (gzip_compress b) = some b := by
  have hq : b.length ≤ 65535 * (b.length / 65535 + 1) := by omega
  have hsb : b.length ≤ (storedBlocks (b.length + 1) b).length :=
    length_storedBlocks (b.length / 65535 + 1) (b.length + 1) b hq (by omega)
      (by omega)
  simp only [gzip_compress, gzipHeader, List.cons_append, List.append_assoc,
    List.nil_append]
  simp only [gzip_decompress]
  rw [inflateStored_storedBlocks (b.length / 65535 + 1) (b.length + 1) _ b [] _ hq
    (by omega) (by omega) (by rw [List.length_append]; omega)]
  simp

/-! # JSON model

The client parses payloads with nlohmann::json, library code outside this
repository.  The model below covers the subset the protocol exchanges:
null, booleans, integer numbers (tracking whether a literal is an integer,
as `is_number_integer` does; fractions parse but their value is unused,
exponents are not modelled), strings as raw bytes with the simple escapes,
arrays and objects. -/

inductive JVal where
  | null : JVal
  | boolean : Bool → JVal
  | num : Int → Bool → JVal
  | str : List Nat → JVal
  | arr : List JVal → JVal
  | obj : List (List Nat × JVal) → JVal

/-- Skip JSON whitespace (space, tab, newline, carriage return). -/
def skipWs : List Nat → List Nat
  | b :: rest => if b = 32 ∨ b = 9 ∨ b = 10 ∨ b = 13 then skipWs rest else b :: rest
  | [] => []

/-- Parse the body of a JSON string after its opening quote; returns the
    decoded bytes and the remainder after the closing quote. -/
def jsonStr : List Nat → Option (List Nat × List Nat)
  | [] => none
  | b :: rest =>
    if b = 34 then some ([], rest)
    else if b = 92 then
      match rest with
      | 34 :: r2 => (jsonStr r2).map (fun p => (34 :: p.1, p.2))
      | 92 :: r2 => (jsonStr r2).map (fun p => (92 :: p.1, p.2))
      | 47 :: r2 => (jsonStr r2).map (fun p => (47 :: p.1, p.2))
      | 98 :: r2 => (jsonStr r2).map (fun p => (8 :: p.1, p.2))
      | 102 :: r2 => (jsonStr r2).map (fun p => (12 :: p.1, p.2))
      | 110 :: r2 => (jsonStr r2).map (fun p => (10 :: p.1, p.2))
      | 114 :: r2 => (jsonStr r2).map (fun p => (13 :: p.1, p.2))
      | 116 :: r2 => (jsonStr r2).map (fun p => (9 :: p.1, p.2))
      | _ => none
    else if b < 32 then none
    else (jsonStr rest).map (fun p => (b :: p.1, p.2))

/-- Take a maximal run of decimal digits. -/
def takeDigits : List Nat → (List Nat × List Nat)
  | [] => ([], [])
  | b :: rest =>
    if 48 ≤ b ∧ b ≤ 57 then
      let p := takeDigits rest
      (b :: p.1, p.2)
    else ([], b :: rest)

/-- Numeric value of a digit run. -/
def digitsVal (ds : List Nat) : Nat :=
  ds.foldl (fun a d => a * 10 + (d - 48)) 0

/-- Parse a JSON number (integer, or a fraction marked non-integral). -/
def jsonNum (s : List Nat) : Option (JVal × List Nat) :=
  let neg : Bool := match s with | 45 :: _ => true | _ => false
  let s1 := match s with | 45 :: r => r | _ => s
  match takeDigits s1 with
  | ([], _) => none
  | (ds, r1) =>
    let v : Int :=
      if neg then - Int.ofNat (digitsVal ds) else Int.ofNat (digitsVal ds)
    match r1 with
    | 46 :: r2 =>
      match takeDigits r2 with
      | ([], _) => none
      | (_, r3) => some (JVal.num v false, r3)
    | _ => some (JVal.num v true, r1)

mutual

/-- Parse one JSON value; `fuel` bounds recursion (input length plus one
    always suffices, since every step consumes input). -/
def jsonVal (fuel : Nat) (s : List Nat) : Option (JVal × List Nat) :=
  match fuel with
  | 0 => none
  | fuel + 1 =>
    match skipWs s with
    | [] => none
    | b :: rest =>
      if b = 110 then
        match rest with
        | 117 :: 108 :: 108 :: r => some (JVal.null, r)
        | _ => none
      else if b = 116 then
        match rest with
        | 114 :: 117 :: 101 :: r => some (JVal.boolean true, r)
        | _ => none
      else if b = 102 then
        match rest with
        | 97 :: 108 :: 115 :: 101 :: r => some (JVal.boolean false, r)
        | _ => none
      else if b = 34 then
        (jsonStr rest).map (fun p => (JVal.str p.1, p.2))
      else if b = 91 then
        match skipWs rest with
        | 93 :: r => some (JVal.arr [], r)
        | r2 =>
          match jsonArrItems fuel r2 with
          | some (xs, r3) => some (JVal.arr xs, r3)
          | none => none
      else if b = 123 then
        match skipWs rest with
        | 125 :: r => some (JVal.obj [], r)
        | r2 =>
          match jsonObjItems fuel r2 with
          | some (kvs, r3) => some (JVal.obj kvs, r3)
          | none => none
      else jsonNum (b :: rest)

/-- Parse comma-separated array items up to the closing bracket. -/
def jsonArrItems (fuel : Nat) (s : List Nat) : Option (List JVal × List Nat) :=
  match fuel with
  | 0 => none
  | fuel + 1 =>
    match jsonVal fuel s with
    | none => none
    | some (v, r1) =>
      match skipWs r1 with
      | 44 :: r2 =>
        match jsonArrItems fuel r2 with
        | some (xs, r3) => some (v :: xs, r3)
        | none => none
      | 93 :: r2 => some ([v], r2)
      | _ => none

/-- Parse comma-separated key/value object members up to the closing brace. -/
def jsonObjItems (fuel : Nat) (s : List Nat) :
    Option (List (List Nat × JVal) × List Nat) :=
  match fuel with
  | 0 => none
  | fuel + 1 =>
    match skipWs s with
    | 34 :: r0 =>
      match jsonStr r0 with
      | none => none
      | some (k, r1) =>
        match skipWs r1 with
        | 58 :: r2 =>
          match jsonVal fuel r2 with
          | none => none
          | some (v, r3) =>
            match skipWs r3 with
            | 44 :: r4 =>
              match jsonObjItems fuel r4 with
              | some (kvs, r5) => some ((k, v) :: kvs, r5)
              | none => none
            | 125 :: r4 => some ([(k, v)], r4)
            | _ => none
        | _ => none
    | _ => none

end

/-- Modelled from the spec: `nlohmann::json::parse` (library code outside this
    repository) on the protocol subset; the whole input must be consumed. -/
def json_parse (s : List Nat) : Option JVal :=
  match jsonVal (s.length + 1) s with
  | some (v, rest) => if skipWs rest = [] then some v else none
  | none => none

/-- Association lookup in a parsed JSON object (first binding wins). -/
def jlookup (kvs : List (List Nat × JVal)) (k : List Nat) : Option JVal :=
  match kvs with
  | [] => none
  | (k2, v) :: rest => if k2 = k then some v else jlookup rest k

/-! # Frame codec: decode path -/

/-- Result of `AsrClient::parse_response` (asr_client.cpp lines 496-565): the
    returned status, the `payload_msg` output parameter (empty on the early
    -1 returns, which leave the caller's string untouched), and whether
    `_recv_last_msg` was set by this call. -/
structure ParseResult where
  ret : Int
  payload_msg : List Nat
  recv_last : Bool
deriving DecidableEq

/-- The trailing `code` / `sequence` checks of parse_response (lines 551-564):
    an integer `code` field different from 1000 yields -1 with `payload_msg`
    already assigned; a negative integer `sequence` sets `_recv_last_msg`. -/
def payloadChecks (payload : List Nat) (obj : JVal) : ParseResult :=
  let codeBad : Bool :=
    match obj with
    | JVal.obj kvs =>
      match jlookup kvs (strBytes "code") with
      | some (JVal.num v true) => v != 1000
      | _ => false
    | _ => false
  if codeBad then ⟨-1, payload, false⟩
  else
    let negSeq : Bool :=
      match obj with
      | JVal.obj kvs =>
        match jlookup kvs (strBytes "sequence") with
        | some (JVal.num v true) => v < 0
        | _ => false
      | _ => false
    ⟨0, payload, negSeq⟩

/-- `AsrClient::parse_response` (asr_client.cpp lines 496-565).  `none` models
    the uncaught exception thrown by `gzip_decompress` on malformed data;
    every other path returns the C++ function's status. -/
def parse_response (response : List Nat) : Option ParseResult :=
  let header_len := (response.getD 0 0 &&& 0x0f) <<< 2
  let message_type := (response.getD 1 0 &&& 0xf0) >>> 4
  let message_serial := (response.getD 2 0 &&& 0xf0) >>> 4
  let message_compress := response.getD 2 0 &&& 0x0f
  let loc : Option (Nat × Nat) :=
    if message_type = FULL_SERVER_RESPONSE then
      some (header_len + 4, readU32be response header_len)
    else if message_type = SERVER_ACK then
      if response.length > 8 then
        some (header_len + 8, readU32be response (header_len + 4))
      else some (0, 0)
    else if message_type = ERROR_MESSAGE_FROM_SERVER then
      some (header_len + 8, readU32be response (header_len + 4))
    else none
  match loc with
  | none => some ⟨-1, [], false⟩
  | some (payload_offset, payload_len) =>
    let payloadOpt : Option (List Nat) :=
      if message_compress = GZIP ∧ payload_len > 0 then
        gzip_decompress ((response.drop payload_offset).take payload_len)
      else some []
    match payloadOpt with
    | none => none
    | some payload =>
      if message_serial = JSON_SERIAL ∧ payload ≠ [] then
        match json_parse payload with
        | none => some ⟨-1, [], false⟩
        | some payload_obj => some (payloadChecks payload payload_obj)
      else some (payloadChecks payload JVal.null)

/-- One observable callback on the caller's result/error callback pair. -/
inductive Cb where
  | result : List Nat → Bool → Cb
  | error : List Nat → Cb
deriving DecidableEq

/-- `AsrClientAdapter::on_message` (volcenginerecognizer.h lines 36-51): the
    forwarded payload is parsed as JSON; a string `result` field yields one
    onResult(text, true) call, a parse or type failure one onError call (the
    modelled error text stands for the C++ message built from e.what()), and
    anything else no callback. -/
def adapter_on_message (msg : List Nat) : List Cb :=
  match json_parse msg with
  | none => [Cb.error (strBytes "JSON parse error")]
  | some v =>
    match v with
    | JVal.obj kvs =>
      match jlookup kvs (strBytes "result") with
      | some (JVal.str s) => [Cb.result s true]
      | some _ => [Cb.error (strBytes "JSON type error")]
      | none => []
    | _ => []

/-- Outcome of `AsrClient::on_message` (asr_client.cpp lines 455-467) on one
    received frame, with the adapter installed as `_asr_callback`: the
    callback invocations, whether the session issued a close
    (only when `parse_response` returned non-zero), and whether the
    received-last-message flag was set. -/
structure MessageOutcome where
  callbacks : List Cb
  close_issued : Bool
  recv_last : Bool
deriving DecidableEq

/-- `AsrClient::on_message` (asr_client.cpp lines 455-467). -/
def on_message (response : List Nat) : Option MessageOutcome :=
  match parse_response response with
  | none => none
  | some r => some ⟨adapter_on_message r.payload_msg, r.ret != 0, r.recv_last⟩

/-! # Frame codec: encode path and synthetic server frames -/

/-- `AsrClient::send_audio` (asr_client.cpp lines 243-267): the binary frame
    written to the socket for one audio chunk.  The first byte packs
    `_protocol_version << 4 | _header_size >> 2`; the second byte carries
    the message type and flags, depending on `is_last`. -/
def send_audio (audio : List Nat) (is_last : Bool) : List Nat :=
  let gz := gzip_compress audio
  [protocol_version <<< 4 ||| header_size >>> 2,
   if is_last then
     AUDIO_ONLY_CLIENT_REQUEST <<< 4 ||| NEGATIVE_SEQUENCE_SERVER_ASSGIN
   else
     AUDIO_ONLY_CLIENT_REQUEST <<< 4 ||| NO_SEQUENCE_NUMBER,
   JSON_SERIAL <<< 4 ||| GZIP, 0] ++ u32be gz.length ++ gz

/-- A synthetic server frame as described in spec §3/§8: the 4-byte header
    (same packing as the client side), an optional leading field (`pre`:
    sequence number or error code bytes), then the big-endian payload length
    and the gzip-compressed JSON payload. -/
def serverFrame (msgType : Nat) (pre : List Nat) (payload : List Nat) : List Nat :=
  let gz := gzip_compress payload
  [protocol_version <<< 4 ||| header_size >>> 2,
   msgType <<< 4 ||| NO_SEQUENCE_NUMBER,
   JSON_SERIAL <<< 4 ||| GZIP, 0] ++ pre ++ u32be gz.length ++ gz

/-- The spec §8 error scenario frame: `messageType = ErrorMessageFromServer`,
    error code 45000000, JSON payload `{"message":"bad request"}`. -/
def errorScenarioFrame : List Nat :=
  serverFrame ERROR_MESSAGE_FROM_SERVER (u32be 45000000)
    (strBytes "\x7b\"message\":\"bad request\"\x7d")

/-- The UTF-8 bytes of the two-character text 你好. -/
def niHao : List Nat := [228, 189, 160, 229, 165, 189]

/-- The spec §8 result scenario frame: a FullServerResponse whose JSON payload
    is `{"result":"你好","sequence":-1}`. -/
def resultScenarioFrame : List Nat :=
  serverFrame FULL_SERVER_RESPONSE []
    (strBytes "\x7b\"result\":\"" ++ niHao ++ strBytes "\",\"sequence\":-1\x7d")

/-! # Authenticator -/

/-- The character (ASCII code) at index `n` of the standard base64 alphabet. -/
def b64char (n : Nat) : Nat :=
  if n < 26 then 65 + n
  else if n < 52 then 97 + (n - 26)
  else if n < 62 then 48 + (n - 52)
  else if n = 62 then 43
  else 47

/-- Modelled from the spec: standard base64 encoding with padding, as
    `boost::beast::detail::base64::encode` produces (library code outside
    this repository). -/
def base64encode : List Nat → List Nat
  | [] => []
  | [a] => [b64char (a / 4), b64char (a % 4 * 16), 61, 61]
  | [a, b] =>
    [b64char (a / 4), b64char (a % 4 * 16 + b / 16), b64char (b % 16 * 4), 61]
  | a :: b :: c :: rest =>
    b64char (a / 4) :: b64char (a % 4 * 16 + b / 16) ::
      b64char (b % 16 * 4 + c / 64) :: b64char (c % 64) :: base64encode rest

/-- The canonical string signed by signature authentication (asr_client.cpp
    lines 326-330): `"GET " + resource + " HTTP/1.1\n" + userAgent + "\n" +
    fullRequestFrameBytes`. -/
def canonicalString (resource user_agent full_req_param : List Nat) : List Nat :=
  strBytes "GET " ++ resource ++ strBytes " HTTP/1.1\n" ++ user_agent ++
    strBytes "\n" ++ full_req_param

/-- One byte of `std::replace(begin, end, a, b)`. -/
def replaceByte (a b x : Nat) : Nat := if x = a then b else x

/-- `AsrClient::set_auth_header` (asr_client.cpp lines 316-351), SIGNATURE
    branch: the Authorization header value.  `hmac_sha256` abstracts OpenSSL's
    `HMAC(EVP_sha256(), ...)` (library code outside this repository), mapping
    the secret key and the canonical data to the raw digest bytes.  After the
    header is assembled, lines 347-349 translate '+' to '-' and '/' to '_'
    over the WHOLE header string, token included. -/
def set_auth_header_signature (hmac_sha256 : List Nat → List Nat → List Nat)
    (sk resource user_agent full_req_param token : List Nat) : List Nat :=
  let mac := base64encode
    (hmac_sha256 sk (canonicalString resource user_agent full_req_param))
  let auth := strBytes "HMAC256; access_token=\"" ++ token ++
    strBytes "\"; mac=\"" ++ mac ++ strBytes "\"; h=\"User-Agent\""
  (auth.map (replaceByte 43 45)).map (replaceByte 47 95)

/-- `AsrClient::set_auth_header`, TOKEN branch (lines 317-320). -/
def set_auth_header_token (token : List Nat) : List Nat :=
  strBytes "Bearer; " ++ token

/-- A fixed digest function standing in for HMAC-SHA256 in concrete
    evaluations (the header-assembly behaviour under scrutiny is independent
    of the digest bytes). -/
def sampleDigest : List Nat → List Nat → List Nat := fun _ _ => List.replicate 32 0

/-- Does `s` begin with `pat`? -/
def startsWith : List Nat → List Nat → Bool
  | _, [] => true
  | [], _ :: _ => false
  | a :: s, b :: p => a == b && startsWith s p

/-- Does `pat` occur as a contiguous substring of `s`? -/
def containsSub (s pat : List Nat) : Bool :=
  startsWith s pat ||
    match s with
    | [] => false
    | _ :: rest => containsSub rest pat

/-! # TLS certificate verification -/

/-- One Subject-Alternative-Name entry as the callback sees it: its GEN type
    (DNS or not), the bytes `ASN1_STRING_get0_data` returns, and the declared
    `ASN1_STRING_length` (so the embedded-NUL check is expressible). -/
structure SanEntry where
  is_dns : Bool
  dns_name : List Nat
  asn1_len : Nat

/-- The leaf certificate as the verification callbacks see it: the SAN
    extension when present, and the Common Name entry when present. -/
structure Cert where
  san : Option (List SanEntry)
  cn : Option (List Nat × Nat)

/-- C `strlen`: bytes up to the first NUL. -/
def cstrlen : List Nat → Nat
  | [] => 0
  | b :: rest => if b = 0 then 0 else cstrlen rest + 1

/-- The C string content: bytes up to the first NUL. -/
def takeToNul : List Nat → List Nat
  | [] => []
  | b :: rest => if b = 0 then [] else b :: takeToNul rest

/-- ASCII lowercase of a byte. -/
def lowerByte (b : Nat) : Nat := if 65 ≤ b ∧ b ≤ 90 then b + 32 else b

/-- `strcasecmp(a, b) == 0`. -/
def strcaseeq (a b : List Nat) : Bool :=
  decide ((takeToNul a).map lowerByte = (takeToNul b).map lowerByte)

/-- The SAN loop of `verify_subject_alternative_name` (asr_client.cpp lines
    43-59): non-DNS entries are skipped; an entry with an embedded NUL breaks
    the loop; otherwise `result` is overwritten with the comparison of the
    hostname against the current entry (the last DNS entry wins). -/
def verifySanLoop (hostname : List Nat) : List SanEntry → Bool → Bool
  | [], result => result
  | e :: rest, result =>
    if e.is_dns = false then verifySanLoop hostname rest result
    else if e.asn1_len ≠ cstrlen e.dns_name then result
    else verifySanLoop hostname rest (strcaseeq hostname e.dns_name)

/-- `verify_subject_alternative_name` (asr_client.cpp lines 30-63). -/
def verify_subject_alternative_name (hostname : List Nat) (cert : Cert) : Bool :=
  match cert.san with
  | none => false
  | some entries => verifySanLoop hostname entries false

/-- `verify_common_name` (asr_client.cpp lines 66-97): absent CN entry (or the
    NULL intermediate results) yields false; an embedded NUL yields false;
    otherwise the case-insensitive comparison. -/
def verify_common_name (hostname : List Nat) (cert : Cert) : Bool :=
  match cert.cn with
  | none => false
  | some (cn_bytes, asn1_len) =>
    if asn1_len ≠ cstrlen cn_bytes then false
    else strcaseeq hostname cn_bytes

/-- `verify_certificate` (asr_client.cpp lines 105-137): on the leaf
    certificate (depth 0) with `preverified`, checks SAN then CN — but every
    branch, including the double mismatch, returns true; every other depth
    returns `true` as well. -/
def verify_certificate (hostname : List Nat) (preverified : Bool) (depth : Nat)
    (cert : Cert) : Bool :=
  if depth = 0 ∧ preverified = true then
    if verify_subject_alternative_name hostname cert then true
    else if verify_common_name hostname cert then true
    else true
  else true

/-! # Transport close -/

/-- Connection states of the underlying websocketpp session
    (asr_client.h line 56: connecting, open, closing, closed). -/
inductive ConnState where
  | connecting
  | opened
  | closing
  | closed
deriving DecidableEq

/-- Modelled from the spec (§4.4 and §3 Connection State): websocketpp
    `connection::close(status::normal, "", ec)`, library code outside this
    repository.  An open connection starts the closing handshake with no
    error; a connection that is not open (still connecting, already closing
    or closed) reports a non-zero error code in `ec` and keeps its state. -/
def connClose : ConnState → ConnState × Int
  | ConnState.opened => (ConnState.closing, 0)
  | s => (s, 1)

/-- The `_con` connection handle of a client: a null shared_ptr until
    `connect()` has created a connection (asr_client.h line 207). -/
structure AsrClientConn where
  con : Option ConnState
deriving DecidableEq

/-- `AsrClient::close` (asr_client.cpp lines 269-273): unconditionally
    dereferences `_con`; with no connection this is a null-pointer
    dereference (undefined behaviour), modelled as `none`.  Otherwise it
    requests a normal closure and returns `ec.value()`. -/
def close (s : AsrClientConn) : Option (AsrClientConn × Int) :=
  match s.con with
  | none => none
  | some c => some (⟨some (connClose c).1⟩, (connClose c).2)

/-! # Recognition orchestrator -/

/-- How the connection attempt resolved inside `sync_connect` (asr_client.cpp
    lines 429-437): the open handler fired, the fail handler fired (which
    also invokes the adapter's onError with "connection error"), or neither
    fired before the timeout. -/
inductive ConnectEvent where
  | opened
  | failed
  | timedOut
deriving DecidableEq

/-- Environment of one `recognize` call: how the connection attempt resolved,
    the status `send_audio` returns, and the frames the server delivers on
    the socket during the session. -/
structure RecognizeEnv where
  connect_event : ConnectEvent
  send_ret : Int
  frames : List (List Nat)
deriving DecidableEq

/-- Transport-level actions performed by `VolcengineRecognizer::recognize`. -/
inductive TransportAction where
  | sync_connect
  | send (is_last : Bool)
  | close_transport
deriving DecidableEq

/-- The observable trace of one `recognize` call. -/
structure RecognizeTrace where
  actions : List TransportAction
  callbacks : List Cb
deriving DecidableEq

/-- Callbacks produced by the frames delivered during the session, through
    `AsrClient::on_message` and the adapter (a frame whose decompression
    throws would abort instead; it contributes no callbacks here). -/
def sessionCallbacks (frames : List (List Nat)) : List Cb :=
  (frames.map (fun f =>
    match on_message f with
    | some o => o.callbacks
    | none => [])).flatten

/-- `VolcengineRecognizer::recognize` (volcenginerecognizer.cpp lines 57-107)
    as the trace of transport actions and user-callback invocations of one
    call.  `is_ready` is the `isReady_` flag that `init()` sets.  On a failed
    connect the adapter's "connection error" callback fires inside
    sync_connect's wait carrying, before the orchestrator's own failure
    callback.  In the open case the frame-derived callbacks run concurrently
    on the socket thread; they are listed before the send-failure error, but
    no order between them is guaranteed by the code. -/
def recognize (is_ready : Bool) (audio : List Nat) (env : RecognizeEnv) :
    RecognizeTrace :=
  if is_ready = false then
    ⟨[], [Cb.error (strBytes "Recognizer not initialized")]⟩
  else if audio = [] then
    ⟨[], [Cb.error (strBytes "Empty audio data")]⟩
  else
    match env.connect_event with
    | ConnectEvent.failed =>
      ⟨[TransportAction.sync_connect],
       [Cb.error (strBytes "connection error"),
        Cb.error (strBytes "Failed to connect to Volcengine API")]⟩
    | ConnectEvent.timedOut =>
      ⟨[TransportAction.sync_connect],
       [Cb.error (strBytes "Failed to connect to Volcengine API")]⟩
    | ConnectEvent.opened =>
      ⟨[TransportAction.sync_connect, TransportAction.send true, TransportAction.close_transport],
       sessionCallbacks env.frames ++
         (if env.send_ret != 0 then
            [Cb.error (strBytes "Failed to send audio data")]
          else [])⟩

/-- Is a callback an error callback? -/
def Cb.isError : Cb → Bool
  | Cb.error _ => true
  | _ => false

/-- The compressed stream is never empty (it begins with the 10-byte gzip
    member header). -/
theorem gzip_compress_length_pos (b : List Nat) : 0 < (gzip_compress b).length := by
  simp [gzip_compress, gzipHeader]

/-- The spec §8 terminal-result frame used for the close-behaviour analysis:
    a FullServerResponse with JSON payload `{"result":"ok","sequence":-1}`. -/
def terminalScenarioFrame : List Nat :=
  serverFrame FULL_SERVER_RESPONSE []
    (strBytes "\x7b\"result\":\"ok\",\"sequence\":-1\x7d")

/-- Mapping a character replacement over a list that does not contain the
    replaced character leaves the list unchanged. -/
theorem map_replaceByte_id (a b : Nat) (l : List Nat) (h : a ∉ l) :
    l.map (replaceByte a b) = l := by
  induction l with
  | nil => rfl
  | cons x xs ih =>
    simp only [List.mem_cons, not_or] at h
    have hx : ¬ x = a := fun he => h.1 he.symm
    simp only [List.map_cons, replaceByte, if_neg hx]
    rw [ih h.2]

/-- **C1 (counterexample)**: the claim says every ErrorMessageFromServer frame
    decodes to a failure outcome (non-zero return from parse_response).  On
    the spec §8 scenario frame (error code 45000000, payload
    `{"message":"bad request"}`) parse_response returns 0: a success, not a
    failure. -/
theorem C1_error_frame_decode_not_failure :
    (parse_response errorScenarioFrame).map ParseResult.ret = some 0 := by
  decide

/-- **C1 (amended)**: decoding an ErrorMessageFromServer frame is not
    unconditionally a failure; the outcome is exactly the generic payload
    checks (JSON parse failure, or an integer `code` field different from
    1000), independent of the frame's error-code field.  In particular the
    spec §8 scenario frame (error code 45000000, payload
    `{"message":"bad request"}`, which carries none of those markers)
    decodes with return value 0, and its on_message run through the adapter
    triggers no result callback — no callback at all — issues no close and
    sets no terminal flag. -/
theorem C1_error_frame_payload_checks_only (errCode : Nat) (payload : List Nat)
    (hlen : (gzip_compress payload).length < 4294967296)
    (hne : payload ≠ []) :
    (parse_response (serverFrame ERROR_MESSAGE_FROM_SERVER (u32be errCode) payload) =
      some (match json_parse payload with
            | none => ⟨-1, [], false⟩
            | some obj => payloadChecks payload obj)) ∧
      on_message errorScenarioFrame = some ⟨[], false, false⟩ := by
  refine ⟨?_, by decide⟩
  have hfr : serverFrame ERROR_MESSAGE_FROM_SERVER (u32be errCode) payload =
      17 :: 240 :: 17 :: 0 ::
        errCode / 16777216 % 256 :: errCode / 65536 % 256 ::
        errCode / 256 % 256 :: errCode % 256 ::
        (gzip_compress payload).length / 16777216 % 256 ::
        (gzip_compress payload).length / 65536 % 256 ::
        (gzip_compress payload).length / 256 % 256 ::
        (gzip_compress payload).length % 256 :: gzip_compress payload := rfl
  rw [hfr]
  simp only [parse_response]
  norm_num [FULL_SERVER_RESPONSE, SERVER_ACK, ERROR_MESSAGE_FROM_SERVER, GZIP,
    JSON_SERIAL, readU32be]
  have s1 : (240 : Nat) >>> 4 = 15 := rfl
  have s2 : ((17 : Nat) &&& 15) <<< 2 = 4 := rfl
  have s3 : ((17 : Nat) &&& 240) >>> 4 = 1 := rfl
  have s4 : (17 : Nat) &&& 15 = 1 := rfl
  have s5 : (1 : Nat) <<< 2 = 4 := rfl
  simp only [s1, s2, s3, s4, s5]
  norm_num
  have hpos : 0 < (gzip_compress payload).length := gzip_compress_length_pos payload
  have hsum : (gzip_compress payload).length / 16777216 % 256 * 16777216 +
      (gzip_compress payload).length / 65536 % 256 * 65536 +
      (gzip_compress payload).length / 256 % 256 * 256 +
      (gzip_compress payload).length % 256 = (gzip_compress payload).length := by
    omega
  rw [hsum, List.take_length, if_pos (by omega), gzip_roundtrip_aux payload]
  simp only [hne, if_false]
  cases json_parse payload <;> rfl

/-- **C1 (witness)**: the amended statement evaluated at the spec §8 scenario
    inputs: the frame decodes successfully, its payload yields the
    payload-check outcome (return 0, no terminal flag), and the adapter
    triggers no result callback on it. -/
theorem C1_witness :
    ((gzip_compress (strBytes "\x7b\"message\":\"bad request\"\x7d")).length <
        4294967296 ∧
      strBytes "\x7b\"message\":\"bad request\"\x7d" ≠ []) ∧
    ((parse_response (serverFrame ERROR_MESSAGE_FROM_SERVER (u32be 45000000)
        (strBytes "\x7b\"message\":\"bad request\"\x7d")) =
      some (match json_parse (strBytes "\x7b\"message\":\"bad request\"\x7d") with
            | none => ⟨-1, [], false⟩
            | some obj =>
              payloadChecks (strBytes "\x7b\"message\":\"bad request\"\x7d") obj)) ∧
      on_message errorScenarioFrame = some ⟨[], false, false⟩) :=
  ⟨⟨by decide, by decide⟩,
    C1_error_frame_payload_checks_only 45000000
      (strBytes "\x7b\"message\":\"bad request\"\x7d") (by decide) (by decide)⟩

/-- **C2 (code evaluated at the failing input)**: on a FullServerResponse
    frame whose JSON payload carries `sequence = -1` (the terminal signal),
    the session forwards the decoded payload — but parse_response returns 0
    after merely setting the received-last flag, so on_message does NOT issue
    the normal-closure request the spec describes (the close branch is taken
    only when parse_response returns non-zero, despite its "closing after
    last message" log text). -/
theorem C2_terminal_frame_does_not_close :
    on_message terminalScenarioFrame =
      some ⟨[Cb.result (strBytes "ok") true], false, true⟩ := by
  decide

/-- **C3 (counterexample)**: the claim says exactly one of onResult/onError is
    invoked per recognize call, never zero.  In the environment where the
    connection opens, the send succeeds and no server frame is delivered
    (which the orchestrator makes likely by closing right after sending), a
    recognize call invokes no callback at all. -/
theorem C3_zero_callbacks_possible :
    (recognize true [1] ⟨ConnectEvent.opened, 0, []⟩).callbacks = [] := by
  decide

/-- **C3 (amended)**: only the pre-send failure paths are guaranteed to
    surface errors: there, between one and two onError calls occur (two when
    the transport fail handler fires in addition to the orchestrator's own
    connect-failure report) and never an onResult; after a successful send
    the number of callbacks is unconstrained (zero with no frames, several
    with several result frames). -/
theorem C3_presend_paths_error_only (is_ready : Bool) (audio : List Nat)
    (env : RecognizeEnv)
    (h : is_ready = false ∨ audio = [] ∨ env.connect_event ≠ ConnectEvent.opened) :
    1 ≤ (recognize is_ready audio env).callbacks.length ∧
      (recognize is_ready audio env).callbacks.length ≤ 2 ∧
      ∀ cb ∈ (recognize is_ready audio env).callbacks, cb.isError = true := by
  obtain ⟨ce, sr, fr⟩ := env
  cases is_ready
  · simp [recognize, Cb.isError]
  · rcases h with h | h | h
    · exact absurd h (by simp)
    · subst h
      simp [recognize, Cb.isError]
    · cases ce
      · exact absurd rfl h
      · by_cases ha : audio = [] <;> simp [recognize, ha, Cb.isError]
      · by_cases ha : audio = [] <;> simp [recognize, ha, Cb.isError]

/-- **C3 (witness)**: the amended statement evaluated on the
    uninitialized-recognizer path. -/
theorem C3_witness :
    (false = false ∨ ([1] : List Nat) = [] ∨
      (⟨ConnectEvent.opened, 0, []⟩ : RecognizeEnv).connect_event ≠
        ConnectEvent.opened) ∧
    (1 ≤ (recognize false [1] ⟨ConnectEvent.opened, 0, []⟩).callbacks.length ∧
      (recognize false [1] ⟨ConnectEvent.opened, 0, []⟩).callbacks.length ≤ 2 ∧
      ∀ cb ∈ (recognize false [1] ⟨ConnectEvent.opened, 0, []⟩).callbacks,
        cb.isError = true) :=
  ⟨Or.inl rfl,
    C3_presend_paths_error_only false [1] ⟨ConnectEvent.opened, 0, []⟩ (Or.inl rfl)⟩

/-- **C4 (counterexample)**: the claim says the token appears verbatim in the
    Authorization header for every token string.  With the token `a+b` the
    header does not contain `a+b`: the base64url translation is applied to
    the whole header value, so the token's '+' becomes '-'. -/
theorem C4_token_not_verbatim :
    containsSub
      (set_auth_header_signature sampleDigest (strBytes "sk")
        (strBytes "/api/v2/asr") (strBytes "WebSocket++") (strBytes "frame")
        (strBytes "a+b"))
      (strBytes "a+b") = false := by
  decide

/-- **C4 (amended)**: the canonical string and the HMAC/base64 pipeline are as
    specified, but the '+'→'-', '/'→'_' translation runs over the entire
    header value, so the token also undergoes it; the token appears verbatim
    exactly when it contains neither '+' (43) nor '/' (47). -/
theorem C4_signature_header_structure
    (hmac_sha256 : List Nat → List Nat → List Nat)
    (sk resource user_agent full_req_param token : List Nat)
    (h43 : 43 ∉ token) (h47 : 47 ∉ token) :
    set_auth_header_signature hmac_sha256 sk resource user_agent full_req_param
        token =
      strBytes "HMAC256; access_token=\"" ++ token ++ strBytes "\"; mac=\"" ++
        ((base64encode (hmac_sha256 sk
          (canonicalString resource user_agent full_req_param))).map
            (replaceByte 43 45)).map (replaceByte 47 95) ++
        strBytes "\"; h=\"User-Agent\"" := by
  unfold set_auth_header_signature
  simp only [List.map_append]
  rw [map_replaceByte_id 43 45 token h43, map_replaceByte_id 47 95 token h47]
  have l1 : ((strBytes "HMAC256; access_token=\"").map (replaceByte 43 45)).map
      (replaceByte 47 95) = strBytes "HMAC256; access_token=\"" := by decide
  have l2 : ((strBytes "\"; mac=\"").map (replaceByte 43 45)).map
      (replaceByte 47 95) = strBytes "\"; mac=\"" := by decide
  have l3 : ((strBytes "\"; h=\"User-Agent\"").map (replaceByte 43 45)).map
      (replaceByte 47 95) = strBytes "\"; h=\"User-Agent\"" := by decide
  rw [l1, l2, l3]

/-- **C4 (witness)**: the amended statement evaluated at a '+'/'/'-free token. -/
theorem C4_witness :
    (43 ∉ strBytes "t1" ∧ 47 ∉ strBytes "t1") ∧
    set_auth_header_signature sampleDigest (strBytes "sk")
        (strBytes "/api/v2/asr") (strBytes "WS") (strBytes "frame")
        (strBytes "t1") =
      strBytes "HMAC256; access_token=\"" ++ strBytes "t1" ++
        strBytes "\"; mac=\"" ++
        ((base64encode (sampleDigest (strBytes "sk")
          (canonicalString (strBytes "/api/v2/asr") (strBytes "WS")
            (strBytes "frame")))).map
            (replaceByte 43 45)).map (replaceByte 47 95) ++
        strBytes "\"; h=\"User-Agent\"" :=
  ⟨⟨by decide, by decide⟩,
    C4_signature_header_structure sampleDigest (strBytes "sk")
      (strBytes "/api/v2/asr") (strBytes "WS") (strBytes "frame")
      (strBytes "t1") (by decide) (by decide)⟩

/-- **C5**: for every audio byte string and every value of `is_last`, the
    encoded audio frame's second header byte carries message type
    AudioOnlyClientRequest in its high nibble, and flags
    NegativeSequenceServerAssigned (when last) or NoSequenceNumber (when not)
    in its low nibble. -/
theorem C5_audio_frame_flags (audio : List Nat) (is_last : Bool) :
    ((send_audio audio is_last).getD 1 0) >>> 4 = AUDIO_ONLY_CLIENT_REQUEST ∧
      (send_audio audio is_last).getD 1 0 &&& 15 =
        (if is_last then NEGATIVE_SEQUENCE_SERVER_ASSGIN
         else NO_SEQUENCE_NUMBER) := by
  cases is_last
  · have h1 : (send_audio audio false).getD 1 0 = 32 := rfl
    rw [h1]
    exact ⟨by decide, by decide⟩
  · have h1 : (send_audio audio true).getD 1 0 = 34 := rfl
    rw [h1]
    exact ⟨by decide, by decide⟩

/-- **C6**: for every non-empty byte string, decompressing the compressed
    stream yields the original bytes (the gzip container round-trip of spec
    §4.2/§8). -/
theorem C6_gzip_roundtrip (b : List Nat) (h : b ≠ []) :
    gzip_decompress (gzip_compress b) = some b :=
  gzip_roundtrip_aux b

/-- **C6 (witness)**: the round-trip evaluated at a concrete byte string. -/
theorem C6_witness :
    ([7, 7] : List Nat) ≠ [] ∧
      gzip_decompress (gzip_compress [7, 7]) = some [7, 7] :=
  ⟨by decide, C6_gzip_roundtrip [7, 7] (by decide)⟩

/-- **C7**: decoding the spec §8 FullServerResponse scenario frame (payload
    `{"result":"你好","sequence":-1}`) invokes the result callback exactly
    once with the bytes of 你好 and final = true, invokes no error callback,
    and sets the received-last-message flag (and, incidentally, issues no
    close, since parse_response returns 0). -/
theorem C7_result_scenario_exactly_one_result :
    on_message resultScenarioFrame =
      some ⟨[Cb.result niHao true], false, true⟩ := by
  decide

/-- **C8**: the TLS verification callback returns success for every input
    with preverified = true — also when neither a SAN entry nor the CN
    matches the hostname, since the final mismatch branch returns true. -/
theorem C8_verify_certificate_always_accepts (hostname : List Nat) (depth : Nat)
    (cert : Cert) : verify_certificate hostname true depth cert = true := by
  simp [verify_certificate]

/-- **C9 (counterexample)**: the claim says close() may be called before any
    connection was established without failing or crashing.  Before
    connect(), `_con` is a null shared_ptr and `close()` dereferences it:
    undefined behaviour (modelled as `none`), not a safe no-op. -/
theorem C9_close_before_connect_crashes :
    close ⟨none⟩ = none := rfl

/-- **C9 (amended)**: once a connection handle exists, close() is idempotent
    and safe: the first close on an open connection requests normal closure
    (error 0, state Closing), and a repeated close leaves the connection
    state unchanged, merely reporting a non-zero error code; only a close()
    before connect() dereferences a null handle. -/
theorem C9_close_idempotent_once_connected (s : AsrClientConn) (c : ConnState)
    (h : s.con = some c) :
    ∃ s1 e1 s2 e2,
      close s = some (s1, e1) ∧ close s1 = some (s2, e2) ∧ s2 = s1 ∧
        (c = ConnState.opened → e1 = 0 ∧ s1.con = some ConnState.closing) := by
  obtain ⟨con⟩ := s
  simp only at h
  subst h
  cases c
  · exact ⟨_, _, _, _, rfl, rfl, rfl, by decide⟩
  · exact ⟨_, _, _, _, rfl, rfl, rfl, by decide⟩
  · exact ⟨_, _, _, _, rfl, rfl, rfl, by decide⟩
  · exact ⟨_, _, _, _, rfl, rfl, rfl, by decide⟩

/-- **C9 (witness)**: the amended statement evaluated on an open connection. -/
theorem C9_witness :
    (⟨some ConnState.opened⟩ : AsrClientConn).con = some ConnState.opened ∧
      ∃ s1 e1 s2 e2,
        close ⟨some ConnState.opened⟩ = some (s1, e1) ∧
          close s1 = some (s2, e2) ∧ s2 = s1 ∧
          (ConnState.opened = ConnState.opened →
            e1 = 0 ∧ s1.con = some ConnState.closing) :=
  ⟨rfl, C9_close_idempotent_once_connected ⟨some ConnState.opened⟩
    ConnState.opened rfl⟩

/-- **C10**: every recognize call that reaches the send step (is_ready, audio
    non-empty, connection opened) performs exactly connect, one send with
    is_last = true, and then close — the close is unconditional and
    independent of the send result and of whether any server frame has been
    received. -/
theorem C10_unconditional_close_after_send (audio : List Nat) (env : RecognizeEnv)
    (h1 : audio ≠ []) (h2 : env.connect_event = ConnectEvent.opened) :
    (recognize true audio env).actions =
      [TransportAction.sync_connect, TransportAction.send true,
        TransportAction.close_transport] := by
  obtain ⟨ce, sr, fr⟩ := env
  simp only at h2
  subst h2
  simp [recognize, h1]

/-- **C10 (witness)**: the close-after-send trace evaluated concretely. -/
theorem C10_witness :
    (([1] : List Nat) ≠ [] ∧
      (⟨ConnectEvent.opened, 0, []⟩ : RecognizeEnv).connect_event =
        ConnectEvent.opened) ∧
    (recognize true [1] ⟨ConnectEvent.opened, 0, []⟩).actions =
      [TransportAction.sync_connect, TransportAction.send true,
        TransportAction.close_transport] :=
  ⟨⟨by decide, rfl⟩,
    C10_unconditional_close_after_send [1] ⟨ConnectEvent.opened, 0, []⟩
      (by decide) rfl⟩
